import Mathlib

set_option maxRecDepth 100000

/-!
Shallow embedding of `src/main.go` of grantstephens/edgehttpbin: an HTTP
behaviour-simulation endpoint built on the Fastly compute SDK.  The whole
program is one dispatcher (`main.go`, lines 31-229) plus three helpers
(`parseDuration`, `parseBoundedDuration`, `handleBytes`, `sha1hash`).

Modelling conventions, used throughout:

* A request is modelled by its path, its headers (an association list whose
  keys are already in Go's canonical header form, looked up the way
  `Header.Get` does: first value, `""` when absent), the value of the
  `failure-rate` query parameter (`""` when absent, as `Query().Get`
  returns), the request body as a byte list, and the remote address.

* The response writer (`fsthttp.ResponseWriter`) follows the standard
  net/http discipline the spec also states: the status is committed by the
  first `WriteHeader`/`Write`; later `WriteHeader` calls are no-ops; header
  mutations after commit do not reach the wire; body writes always append.

* Environment inputs that the handler reads from the outside world are
  gathered in `Env`: the result of the single `rand.Intn` call of the
  status branch, the per-iteration `rand.Intn(256)` draws of the bytes
  loop, the `rand.Float64` draw of the unstable branch, the formatted
  `time.Now().Format(time.RFC1123)` string, whether the request's
  cancellation signal fires before the delay timer, and the embedded
  static asset store (keyed by the path after `static/`, returning the
  file bytes or nothing).  Exactly one branch runs per request, so keeping
  these as separate fields is faithful.

* Machine integers are modelled as `Nat`/`Int` (status codes as `Int`,
  since `strconv.Atoi` can produce negative codes that flow unchecked into
  `WriteHeader`); 32-bit words in SHA-1 are `Nat` reduced `% 2^32`.
  `rand.Float64` and `strconv.ParseFloat` values are modelled as `ℚ`; every
  numeral the claims exercise (0, 0.5, 1) is exactly representable in
  float64, so no rounding question arises at the points proved.

* Go regexes `/status/([^/]*)` etc. are unanchored and their group can be
  empty, so `FindAllStringSubmatch(path, -1) != nil` holds exactly when
  the path contains the substring `/status/`.  Because that substring has
  no interior slash, it occurs in `path` iff splitting `path` on `/`
  yields the word `status` at a position that has both a predecessor and
  a successor segment; `hasInner` below is that segment-level reading.
-/

namespace EdgeHttpBin

/-! ### Bytes and strings -/

/-- Bytes of a string; the program only ever writes ASCII text, for which
`Char.toNat` agrees with UTF-8. -/
def strBytes (s : String) : List Nat := s.toList.map Char.toNat

def hexChar (n : Nat) : Char :=
  if n < 10 then Char.ofNat (48 + n) else Char.ofNat (87 + n)

/-- Lowercase hex rendering of a byte list, as Go's `fmt.Sprintf("%x", b)`. -/
def hexStr (bs : List Nat) : String :=
  String.mk (bs.foldr (fun b acc => hexChar (b / 16) :: hexChar (b % 16) :: acc) [])

/-- Value of a digit list, most significant first. -/
def natOfDigits (cs : List Char) : Nat :=
  cs.foldl (fun a c => a * 10 + (c.toNat - 48)) 0

/-- `unicode.IsSpace` restricted to the ASCII space characters, which is all
the claims exercise. -/
def isGoSpace (c : Char) : Bool :=
  c = ' ' || c = '\t' || c = '\n' || c = '\x0b' || c = '\x0c' || c = '\r'

/-- `strings.Fields`: split around runs of whitespace. -/
def fieldsAux : List Char → List Char → List String
  | [], [] => []
  | [], cur => [String.mk cur.reverse]
  | c :: rest, cur =>
    if isGoSpace c then
      if cur.isEmpty then fieldsAux rest []
      else String.mk cur.reverse :: fieldsAux rest []
    else fieldsAux rest (c :: cur)

def goFields (s : String) : List String := fieldsAux s.toList []

/-- `strings.TrimLeft(s, "/")`: drop every leading slash. -/
def trimLeftSlash (s : String) : String :=
  String.mk (s.toList.dropWhile (fun c => c = '/'))

/-- `strings.Split` with a one-character separator (structural recursion so
that the kernel can evaluate it). -/
def splitCharAux (sep : Char) : List Char → List Char → List String
  | [], cur => [String.mk cur.reverse]
  | c :: rest, cur =>
    if c = sep then String.mk cur.reverse :: splitCharAux sep rest []
    else splitCharAux sep rest (c :: cur)

def splitChar (sep : Char) (s : String) : List String := splitCharAux sep s.toList []

/-- `strings.Split(path, "/")`. -/
def segs (p : String) : List String := splitChar '/' p

/-- Segment-level reading of `regexp.MustCompile("/word/([^/]*)").FindAll... != nil`
(see the header comment): the word occurs as a segment that is neither the
first nor the last. -/
def hasInner (word : String) (parts : List String) : Bool :=
  ((parts.drop 1).dropLast).contains word

/-! ### SHA-1 (`crypto/sha1`), needed by `sha1hash` (main.go:307-310) -/

def w32 (n : Nat) : Nat := n % 4294967296

def rotl (x k : Nat) : Nat := ((x <<< k) ||| (x >>> (32 - k))) % 4294967296

def sha1f (t b c d : Nat) : Nat :=
  if t < 20 then (b &&& c) ||| ((b ^^^ 4294967295) &&& d)
  else if t < 40 then b ^^^ c ^^^ d
  else if t < 60 then (b &&& c) ||| (b &&& d) ||| (c &&& d)
  else b ^^^ c ^^^ d

def sha1k (t : Nat) : Nat :=
  if t < 20 then 1518500249
  else if t < 40 then 1859775393
  else if t < 60 then 2400959708
  else 3395469782

/-- Big-endian 32-bit words from bytes. -/
def toWords : List Nat → List Nat
  | a :: b :: c :: d :: rest => (a * 16777216 + b * 65536 + c * 256 + d) :: toWords rest
  | _ => []

/-- Extend the 16 block words to the 80-word schedule. -/
def sha1ws (ws16 : List Nat) : List Nat :=
  (List.range 64).foldl
    (fun acc i =>
      acc ++ [rotl ((acc.getD (i + 13) 0) ^^^ (acc.getD (i + 8) 0) ^^^
                    (acc.getD (i + 2) 0) ^^^ (acc.getD i 0)) 1])
    ws16

def sha1step (ws : List Nat) (st : Nat × Nat × Nat × Nat × Nat) (t : Nat) :
    Nat × Nat × Nat × Nat × Nat :=
  let (a, b, c, d, e) := st
  let tmp := w32 (rotl a 5 + sha1f t b c d + e + sha1k t + ws.getD t 0)
  (tmp, a, rotl b 30, c, d)

def sha1block (h : Nat × Nat × Nat × Nat × Nat) (block : List Nat) :
    Nat × Nat × Nat × Nat × Nat :=
  let ws := sha1ws (toWords block)
  let (h0, h1, h2, h3, h4) := h
  let (a, b, c, d, e) := (List.range 80).foldl (sha1step ws) h
  (w32 (h0 + a), w32 (h1 + b), w32 (h2 + c), w32 (h3 + d), w32 (h4 + e))

def be64 (n : Nat) : List Nat :=
  [(n >>> 56) % 256, (n >>> 48) % 256, (n >>> 40) % 256, (n >>> 32) % 256,
   (n >>> 24) % 256, (n >>> 16) % 256, (n >>> 8) % 256, n % 256]

/-- Merkle-Damgard padding: a 0x80 byte, zeros to 56 mod 64, then the bit
length, big-endian. -/
def sha1pad (msg : List Nat) : List Nat :=
  msg ++ 128 :: List.replicate ((119 - msg.length % 64) % 64) 0 ++ be64 (8 * msg.length)

/-- 64-byte blocks; the fuel is the list length, enough because every
step consumes 64 bytes of a non-empty list (structural recursion so that
the kernel can evaluate it). -/
def chunks64F : Nat → List Nat → List (List Nat)
  | 0, _ => []
  | fuel + 1, bs => if bs.isEmpty then [] else bs.take 64 :: chunks64F fuel (bs.drop 64)

def chunks64 (bs : List Nat) : List (List Nat) := chunks64F bs.length bs

def wordBytes (w : Nat) : List Nat :=
  [(w >>> 24) % 256, (w >>> 16) % 256, (w >>> 8) % 256, w % 256]

/-- The 20-byte SHA-1 digest of a byte list. -/
def sha1digest (msg : List Nat) : List Nat :=
  let hs := (chunks64 (sha1pad msg)).foldl sha1block
    (1732584193, 4023233417, 2562383102, 271733878, 3285377520)
  let (h0, h1, h2, h3, h4) := hs
  wordBytes h0 ++ wordBytes h1 ++ wordBytes h2 ++ wordBytes h3 ++ wordBytes h4

/-- main.go:307-310.  Note the source never `Write`s `input` into the hash
state: `h.Sum([]byte(input))` APPENDS the digest of the empty message to
`input`, so the result is the hex of `input ++ SHA1("")`. -/
def sha1hash (input : String) : String :=
  hexStr (strBytes input ++ sha1digest [])

/-! ### Numeric parsers (`strconv`, `time.ParseDuration`) -/

/-- Digit-sequence value, or `none` when empty or not all digits. -/
def digitsVal? (cs : List Char) : Option Nat :=
  if cs.isEmpty then none
  else if cs.all Char.isDigit then some (natOfDigits cs) else none

/-- `strconv.Atoi` (= `ParseInt(s, 10, 0)`): optional sign then digits,
nothing else.  The bit-size overflow error is not modelled; every value the
claims exercise is tiny. -/
def atoi (s : String) : Option Int :=
  match s.toList with
  | '+' :: rest => (digitsVal? rest).map (fun n => (n : Int))
  | '-' :: rest => (digitsVal? rest).map (fun n => -(n : Int))
  | cs => (digitsVal? cs).map (fun n => (n : Int))

/-- The `err.Error()` text for a failed `strconv` parse with invalid syntax. -/
def numErrMsg (fn s : String) : String :=
  "strconv." ++ fn ++ ": parsing \"" ++ s ++ "\": invalid syntax"

/-- `strconv.ParseFloat(s, 64)`, restricted to the plain decimal forms the
program's callers meet (optional sign, digits with at most one dot); the
exponent/hex/inf forms are not modelled.  The value is kept exact in `ℚ`;
all values the claims exercise are exactly representable in float64. -/
def parseFloatQ (s : String) : Option ℚ :=
  let core : List Char → Option ℚ := fun cs =>
    let ip := cs.takeWhile Char.isDigit
    let rest := cs.dropWhile Char.isDigit
    match rest with
    | [] => if ip.isEmpty then none else some (mkRat (natOfDigits ip) 1)
    | '.' :: fp =>
      if (ip.isEmpty && fp.isEmpty) || !(fp.all Char.isDigit) then none
      else some (mkRat (natOfDigits (ip ++ fp)) (10 ^ fp.length))
    | _ => none
  match s.toList with
  | '+' :: rest => core rest
  | '-' :: rest => (core rest).map Neg.neg
  | cs => core cs

/-- Truncation toward zero of `q * 1000`, as Go's float-to-integer
conversion in `time.Duration(n*1000)`: `Int.tdiv` rounds toward zero and a
common factor in numerator and denominator does not change the quotient, so
this is the truncation of the exact product. -/
def ratTrunc1000 (q : ℚ) : Int := Int.tdiv (q.num * 1000) (q.den : Int)

/-- `time.ParseDuration` unit table, in nanoseconds. -/
def unitNs (u : String) : Option Nat :=
  if u = "ns" then some 1
  else if u = "us" then some 1000
  else if u = "µs" then some 1000
  else if u = "μs" then some 1000
  else if u = "ms" then some 1000000
  else if u = "s" then some 1000000000
  else if u = "m" then some 60000000000
  else if u = "h" then some 3600000000000
  else none

/-- One pass of `time.ParseDuration`'s term loop: (digits, optional dot and
fraction digits, unit) repeated; the sum in nanoseconds.  Each iteration of
the Go loop consumes at least one character (the unit is non-empty whenever
the lookup succeeds), so fuel `cs.length + 1` never runs out.  Go adds a
fraction as `int64(float64(f) * (unit / scale))`; the exact
floor `f * unit / scale` used here agrees at every input whose fraction is
representable, in particular everywhere the claims evaluate it. -/
def durTerms : Nat → List Char → Option Nat
  | _, [] => some 0
  | 0, _ :: _ => none
  | fuel + 1, cs =>
    let ds := cs.takeWhile Char.isDigit
    let r1 := cs.dropWhile Char.isDigit
    let hasFrac := match r1 with | '.' :: _ => true | _ => false
    let fds := if hasFrac then (r1.drop 1).takeWhile Char.isDigit else []
    let r2 := if hasFrac then (r1.drop 1).dropWhile Char.isDigit else r1
    if ds.isEmpty && fds.isEmpty then none
    else
      let u := r2.takeWhile (fun c => !(c == '.' || c.isDigit))
      let r3 := r2.dropWhile (fun c => !(c == '.' || c.isDigit))
      match unitNs (String.mk u) with
      | none => none
      | some unit =>
        match durTerms fuel r3 with
        | none => none
        | some restv =>
          some (natOfDigits ds * unit + natOfDigits fds * unit / 10 ^ fds.length + restv)

/-- `time.ParseDuration`: optional sign, the special case `"0"`, otherwise
one or more number-unit terms.  Result in nanoseconds.  Overflow checks are
not modelled. -/
def parseDurationGo (s : String) : Option Int :=
  match s.toList with
  | [] => none
  | cs0 =>
    let neg := match cs0 with | '-' :: _ => true | _ => false
    let cs := match cs0 with
      | '-' :: r => r
      | '+' :: r => r
      | r => r
    if cs = ['0'] then some 0
    else if cs.isEmpty then none
    else match durTerms (cs.length + 1) cs with
      | none => none
      | some n => some (if neg then -(n : Int) else (n : Int))

/-- main.go:231-241 `parseDuration`: a duration expression, or else a bare
float of seconds via `time.Duration(n*1000) * time.Millisecond`. -/
def parseDurationRepo (s : String) : Option Int :=
  match parseDurationGo s with
  | some d => some d
  | none =>
    match parseFloatQ s with
    | none => none
    | some q => some (ratTrunc1000 q * 1000000)

/-- main.go:243-255 `parseBoundedDuration`: the caller only looks at the
error, so the result is `none` exactly when parsing fails or the value is
outside `[lo, hi]`. -/
def parseBoundedDuration (input : String) (lo hi : Int) : Option Int :=
  match parseDurationRepo input with
  | none => none
  | some d => if hi < d then none else if d < lo then none else some d

/-! ### Response writer (`fsthttp.ResponseWriter`) -/

structure RW where
  status : Option Int
  headers : List (String × String)
  body : List Nat
deriving DecidableEq, Repr

def RW.init : RW := ⟨none, [], []⟩

def RW.committed (w : RW) : Bool := w.status.isSome

/-- `w.Header().Add`: appends; mutations after the headers are flushed do
not reach the wire. -/
def RW.headerAdd (w : RW) (k v : String) : RW :=
  if w.committed then w else { w with headers := w.headers ++ [(k, v)] }

/-- `w.Header().Set`: replaces all values for the key. -/
def RW.headerSet (w : RW) (k v : String) : RW :=
  if w.committed then w
  else { w with headers := w.headers.filter (fun p => p.1 != k) ++ [(k, v)] }

/-- `w.WriteHeader`: first call commits the status, later calls are no-ops. -/
def RW.writeHeader (w : RW) (c : Int) : RW :=
  if w.committed then w else { w with status := some c }

/-- `w.Write`: commits status 200 if nothing was committed, then appends. -/
def RW.write (w : RW) (bs : List Nat) : RW :=
  let w' := w.writeHeader 200
  { w' with body := w'.body ++ bs }

def RW.writeStr (w : RW) (s : String) : RW := w.write (strBytes s)

/-- First value for the key, `""` when absent, as `Header.Get`. -/
def RW.headerGet (w : RW) (k : String) : String :=
  match w.headers.find? (fun p => p.1 == k) with
  | some p => p.2
  | none => ""

/-- `fsthttp.StatusText`: the canonical reason phrase, `""` for unassigned
codes (the table of net/http). -/
def statusText (c : Int) : String :=
  if c = 100 then "Continue" else if c = 101 then "Switching Protocols"
  else if c = 102 then "Processing" else if c = 103 then "Early Hints"
  else if c = 200 then "OK" else if c = 201 then "Created"
  else if c = 202 then "Accepted" else if c = 203 then "Non-Authoritative Information"
  else if c = 204 then "No Content" else if c = 205 then "Reset Content"
  else if c = 206 then "Partial Content" else if c = 207 then "Multi-Status"
  else if c = 208 then "Already Reported" else if c = 226 then "IM Used"
  else if c = 300 then "Multiple Choices" else if c = 301 then "Moved Permanently"
  else if c = 302 then "Found" else if c = 303 then "See Other"
  else if c = 304 then "Not Modified" else if c = 305 then "Use Proxy"
  else if c = 307 then "Temporary Redirect" else if c = 308 then "Permanent Redirect"
  else if c = 400 then "Bad Request" else if c = 401 then "Unauthorized"
  else if c = 402 then "Payment Required" else if c = 403 then "Forbidden"
  else if c = 404 then "Not Found" else if c = 405 then "Method Not Allowed"
  else if c = 406 then "Not Acceptable" else if c = 407 then "Proxy Authentication Required"
  else if c = 408 then "Request Timeout" else if c = 409 then "Conflict"
  else if c = 410 then "Gone" else if c = 411 then "Length Required"
  else if c = 412 then "Precondition Failed" else if c = 413 then "Request Entity Too Large"
  else if c = 414 then "Request URI Too Long" else if c = 415 then "Unsupported Media Type"
  else if c = 416 then "Requested Range Not Satisfiable" else if c = 417 then "Expectation Failed"
  else if c = 418 then "I\x27m a teapot" else if c = 421 then "Misdirected Request"
  else if c = 422 then "Unprocessable Entity" else if c = 423 then "Locked"
  else if c = 424 then "Failed Dependency" else if c = 425 then "Too Early"
  else if c = 426 then "Upgrade Required" else if c = 428 then "Precondition Required"
  else if c = 429 then "Too Many Requests" else if c = 431 then "Request Header Fields Too Large"
  else if c = 451 then "Unavailable For Legal Reasons"
  else if c = 500 then "Internal Server Error" else if c = 501 then "Not Implemented"
  else if c = 502 then "Bad Gateway" else if c = 503 then "Service Unavailable"
  else if c = 504 then "Gateway Timeout" else if c = 505 then "HTTP Version Not Supported"
  else if c = 506 then "Variant Also Negotiates" else if c = 507 then "Insufficient Storage"
  else if c = 508 then "Loop Detected" else if c = 510 then "Not Extended"
  else if c = 511 then "Network Authentication Required"
  else ""

/-- `fsthttp.Error` (mirror of `http.Error`): sets the plain-text content
type, writes the status, then `Fprintln`s the message. -/
def RW.httpError (w : RW) (msg : String) (code : Int) : RW :=
  (((w.headerSet "Content-Type" "text/plain; charset=utf-8").headerSet
      "X-Content-Type-Options" "nosniff").writeHeader code).writeStr (msg ++ "\n")

/-! ### Request and environment -/

structure Request where
  path : String
  headers : List (String × String)
  failureRate : String
  body : List Nat
  remoteAddr : String

/-- `r.Header.Get`: keys are stored in Go's canonical form and looked up by
that form; first value, `""` when absent. -/
def Request.get (r : Request) (k : String) : String :=
  match r.headers.find? (fun p => p.1 == k) with
  | some p => p.2
  | none => ""

structure Env where
  intn : Nat → Nat
  byteRnd : Nat → Nat
  floatDraw : ℚ
  nowRFC1123 : String
  cancelled : Bool
  assets : String → Option (List Nat)

/-! ### Handlers (main.go:31-229, 257-305) -/

/-- main.go:35-63, the `/status/` branch. `rand.Intn(n)` always returns a
value below `n`; environments used below respect that. -/
def statusHandler (env : Env) (parts : List String) (w : RW) : RW :=
  if parts.length ≠ 3 then w.httpError "Not found" 404
  else
    let codes := splitChar ',' (parts.getD 2 "")
    let w := if codes.length > 1 then
        (w.headerAdd "Surrogate-Control" "max-age=31557600").headerAdd
          "Cache-Control" "no-store, max-age=0"
      else w
    match atoi (codes.getD (env.intn codes.length) "") with
    | none => w.httpError "Invalid status" 400
    | some code =>
      if code ≥ 300 then w.httpError (statusText code) code
      else
        let w := if code > 999 then w.httpError (statusText 400) 400 else w
        w.writeHeader code

/-- main.go:66-88, the `/delay/` branch; `env.cancelled` records which side
of the `select` fires first. -/
def delayHandler (env : Env) (parts : List String) (w : RW) : RW :=
  if parts.length ≠ 3 then w.httpError "Not found" 404
  else match parseBoundedDuration (parts.getD 2 "") 0 60000000000 with
    | none => w.httpError "Invalid duration" 400
    | some _ =>
      if env.cancelled then w.writeHeader 499 else w.writeStr "delayed ok"

/-- The `writer` closure of `handleBytes` (main.go:287-290). -/
def bytesWriter (chunk : List Nat) (w : RW) : RW :=
  (w.headerSet "Content-Length" (toString chunk.length)).write chunk

/-- The byte-generation loop of `handleBytes` (main.go:294-304): append one
draw per iteration, flush when the chunk reaches `numBytes`, flush a
non-empty remainder at the end.  The loop runs for `i` from 0 while
`i < n`, so it is written as recursion on the remaining iteration count
`rem = n - i` (structural, so that the kernel can evaluate it); the entry
point passes `rem = n`. -/
def goBytes (n : Nat) (rnd : Nat → Nat) : Nat → Nat → List Nat → RW → RW
  | 0, _, chunk, w => if chunk.length > 0 then bytesWriter chunk w else w
  | rem + 1, i, chunk, w =>
    let chunk' := chunk ++ [rnd i % 256]
    if chunk'.length = n then goBytes n rnd rem (i + 1) [] (bytesWriter chunk' w)
    else goBytes n rnd rem (i + 1) chunk' w

/-- main.go:257-305 `handleBytes`. -/
def handleBytes (env : Env) (r : Request) (w : RW) : RW :=
  let parts := segs r.path
  if parts.length ≠ 3 then w.httpError "Not found" 404
  else match atoi (parts.getD 2 "") with
    | none => w.httpError (numErrMsg "Atoi" (parts.getD 2 "")) 400
    | some n =>
      if n < 0 then w.httpError "Bad Request" 400
      else if n = 0 then (w.headerSet "Content-Length" "0").writeHeader 200
      else
        let m : Int := if n > 102400 then 102400 else n
        let w := w.headerSet "Content-Type" "application/octet-stream"
        goBytes m.toNat env.byteRnd m.toNat 0 [] w

/-- main.go:104-107, the non-conditional `/cache` branch.  The source has no
`return` after the empty write, so dispatch continues afterwards. -/
def cacheOk (env : Env) (w : RW) : RW :=
  let lm := env.nowRFC1123
  ((w.headerAdd "Last-Modified" lm).headerAdd "ETag" (sha1hash lm)).write []

/-- main.go:110-127, the `/cache/<seconds>` branch (`ParseInt(s, 10, 64)`). -/
def cacheParamHandler (parts : List String) (w : RW) : RW :=
  if parts.length ≠ 3 then w.httpError "Not found" 404
  else match atoi (parts.getD 2 "") with
    | none => w.httpError (numErrMsg "ParseInt" (parts.getD 2 "")) 400
    | some sec =>
      (w.headerAdd "Cache-Control" ("public, max-age=" ++ toString sec)).write []

/-- main.go:130-134, `/anything`: copy every request header, echo the body. -/
def anythingHandler (r : Request) (w : RW) : RW :=
  (r.headers.foldl (fun w p => w.headerAdd p.1 p.2) w).write r.body

/-- main.go:137-141, `/user-agent`. -/
def userAgentHandler (r : Request) (w : RW) : RW :=
  (w.headerSet "Content-Type" "text/json; charset=utf-8").writeStr
    ("\x7b\"user-agent\":\"" ++ r.get "User-Agent" ++ "\"\x7d")

/-- main.go:144-148, `/ip`. -/
def ipHandler (r : Request) (w : RW) : RW :=
  (w.headerSet "Content-Type" "text/json; charset=utf-8").writeStr
    ("\x7b\"origin\":\"" ++ r.remoteAddr ++ "\"\x7d")

/-- main.go:151-161, `/bearer`. -/
def bearerHandler (r : Request) (w : RW) : RW :=
  let tf := goFields (r.get "Authorization")
  if tf.length ≠ 2 ∨ tf.getD 0 "" ≠ "Bearer" then
    (w.headerSet "WWW-Authenticate" "Bearer").writeHeader 401
  else
    w.writeStr ("\x7b\"authenticated\": true, \"token\":\"" ++ tf.getD 1 "" ++ "\"\x7d")

/-- main.go:164-188, the `/redirect/` branch. -/
def redirectHandler (parts : List String) (w : RW) : RW :=
  if parts.length ≠ 3 then w.httpError "Not found" 404
  else match atoi (parts.getD 2 "") with
    | none => w.httpError "Invalid redirects" 400
    | some n =>
      if n = 0 then w.writeStr "completed redirects"
      else if n > 20 then w.httpError "maximum of 20 redirects allowed" 400
      else ((w.headerSet "Location" ("/redirect/" ++ toString (n - 1))).httpError
        (statusText 302) 302)

/-- main.go:191-208, `/unstable`: out-of-`(0,1)` or unparsable rates keep
the default 0.5; the draw decides. -/
def unstableHandler (env : Env) (r : Request) (w : RW) : RW :=
  let w := (w.headerAdd "Surrogate-Control" "max-age=31557600").headerAdd
    "Cache-Control" "no-store, max-age=0"
  let rate : ℚ := match parseFloatQ r.failureRate with
    | some p => if p < 1 ∧ p > 0 then p else mkRat 1 2
    | none => mkRat 1 2
  if env.floatDraw > rate then w.write []
  else w.httpError (statusText 500) 500

/-- main.go:211-219, the index route; a read failure `Error`s 500 and then
still writes the nil data (no `return` there either). -/
def indexHandler (env : Env) (w : RW) : RW :=
  let w := w.headerSet "Content-Type" "text/html; charset=utf-8"
  match env.assets "index.html" with
  | some data => w.write data
  | none => (w.httpError (statusText 500) 500).write []

/-- The tail of the dispatcher after the exact-path `/cache` block
(main.go:110-227), reached with whatever `w` that block left behind. -/
def afterCache (env : Env) (r : Request) (parts : List String) (w : RW) : RW :=
  if hasInner "cache" parts then cacheParamHandler parts w
  else if r.path = "/anything" then anythingHandler r w
  else if r.path = "/user-agent" then userAgentHandler r w
  else if r.path = "/ip" then ipHandler r w
  else if r.path = "/bearer" then bearerHandler r w
  else if hasInner "redirect" parts then redirectHandler parts w
  else if r.path = "/unstable" then unstableHandler env r w
  else if r.path = "/" then indexHandler env w
  else match env.assets (trimLeftSlash r.path) with
    | some data => w.write data
    | none => w.httpError (statusText 404) 404

/-- The dispatcher, main.go:33-228.  The `/cache` 304 arm returns; the 200
arm falls through into the rest of the chain (missing `return` at
main.go:108). -/
def dispatch (env : Env) (r : Request) : RW :=
  let parts := segs r.path
  if hasInner "status" parts then statusHandler env parts RW.init
  else if hasInner "delay" parts then delayHandler env parts RW.init
  else if hasInner "bytes" parts then handleBytes env r RW.init
  else if r.path = "/cache" ∧ (r.get "If-Modified-Since" ≠ "" ∨ r.get "If-None-Match" ≠ "")
    then RW.writeHeader RW.init 304
  else
    let w := if r.path = "/cache" then cacheOk env RW.init else RW.init
    afterCache env r parts w

/-! ### Concrete environments and requests used by closed theorems -/

/-- A fixed RFC1123-style timestamp standing for `time.Now().Format(time.RFC1123)`. -/
def tsDefault : String := "Mon, 02 Jan 2006 15:04:05 MST"

/-- An environment whose random draws are all 0, whose uniform draw is 3/4,
whose clock prints `tsDefault`, with no cancellation and an empty static
asset store.  `intn` always returning 0 is a legitimate `rand.Intn` outcome
(`rand.Intn n < n` for every positive `n`). -/
def envDefault : Env :=
  { intn := fun _ => 0, byteRnd := fun _ => 0, floatDraw := mkRat 3 4,
    nowRFC1123 := tsDefault, cancelled := false, assets := fun _ => none }

/-- A headerless request to the given path. -/
def mkReq (p : String) : Request :=
  { path := p, headers := [], failureRate := "", body := [], remoteAddr := "192.0.2.1" }

/-! ### Loop characterisation and routing lemmas -/

/-- Invariant of the byte loop: entered at index `i` with `i + k = n`,
`k > 0` pending iterations and a chunk holding the first `i` draws, it
flushes exactly once, with all `n` draws. -/
theorem goBytes_aux (n : Nat) (rnd : Nat → Nat) :
    ∀ k i chunk w, i + k = n → 0 < k → chunk.length = i →
      goBytes n rnd k i chunk w =
        bytesWriter (chunk ++ (List.range' i k).map (fun j => rnd j % 256)) w := by
  intro k
  induction k with
  | zero => intro i chunk w _ hk _; exact absurd hk (lt_irrefl 0)
  | succ k ih =>
    intro i chunk w hik _ hlen
    by_cases hk0 : k = 0
    · subst hk0
      have hfl : (chunk ++ [rnd i % 256]).length = n := by
        simp only [List.length_append, List.length_cons, List.length_nil, hlen]
        omega
      simp only [goBytes]
      rw [if_pos hfl, if_neg (by simp)]
      rw [List.range'_succ]
      rfl
    · have hne : (chunk ++ [rnd i % 256]).length ≠ n := by
        simp only [List.length_append, List.length_cons, List.length_nil, hlen]
        omega
      simp only [goBytes]
      rw [if_neg hne, ih (i + 1) (chunk ++ [rnd i % 256]) w (by omega) (by omega)
        (by simp only [List.length_append, List.length_cons, List.length_nil, hlen])]
      rw [List.range'_succ]
      simp [List.append_assoc]

/-- Entering the loop as `handleBytes` does, with `n > 0` draws requested,
produces one flush of the `n` draws. -/
theorem goBytes_eq (n : Nat) (rnd : Nat → Nat) (w : RW) (hn : 0 < n) :
    goBytes n rnd n 0 [] w =
      bytesWriter ((List.range n).map (fun j => rnd j % 256)) w := by
  rw [goBytes_aux n rnd n 0 [] w (by omega) hn rfl, List.range_eq_range']
  rfl

/-- From a three-segment split, the path differs from any fixed path whose
split does not have three segments. -/
theorem path_ne_len3 {r : Request} {a b c : String} (hs : segs r.path = [a, b, c])
    (p : String) (hp : (segs p).length ≠ 3) : r.path ≠ p := by
  intro he
  apply hp
  rw [← he, hs]
  rfl

/-- A `/status/<s>` path reaches the status branch. -/
theorem dispatch_status_route (env : Env) (r : Request) (s : String)
    (hs : segs r.path = ["", "status", s]) :
    dispatch env r = statusHandler env ["", "status", s] RW.init := by
  simp only [dispatch, hs]
  rfl

/-- A `/delay/<s>` path reaches the delay branch. -/
theorem dispatch_delay_route (env : Env) (r : Request) (s : String)
    (hs : segs r.path = ["", "delay", s]) :
    dispatch env r = delayHandler env ["", "delay", s] RW.init := by
  simp only [dispatch, hs]
  rfl

/-- A `/bytes/<s>` path reaches `handleBytes`. -/
theorem dispatch_bytes_route (env : Env) (r : Request) (s : String)
    (hs : segs r.path = ["", "bytes", s]) :
    dispatch env r = handleBytes env r RW.init := by
  simp only [dispatch, hs]
  rfl

/-- A `/redirect/<s>` path passes every earlier branch and reaches the
redirect branch. -/
theorem dispatch_redirect_route (env : Env) (r : Request) (s : String)
    (hs : segs r.path = ["", "redirect", s]) :
    dispatch env r = redirectHandler ["", "redirect", s] RW.init := by
  have hca : r.path ≠ "/cache" := path_ne_len3 hs "/cache" (by decide)
  have hany : r.path ≠ "/anything" := path_ne_len3 hs "/anything" (by decide)
  have hua : r.path ≠ "/user-agent" := path_ne_len3 hs "/user-agent" (by decide)
  have hip : r.path ≠ "/ip" := path_ne_len3 hs "/ip" (by decide)
  have hbr : r.path ≠ "/bearer" := path_ne_len3 hs "/bearer" (by decide)
  simp only [dispatch, afterCache, hs,
    show hasInner "status" ["", "redirect", s] = false from rfl,
    show hasInner "delay" ["", "redirect", s] = false from rfl,
    show hasInner "bytes" ["", "redirect", s] = false from rfl,
    show hasInner "cache" ["", "redirect", s] = false from rfl,
    show hasInner "redirect" ["", "redirect", s] = true from rfl,
    hca, hany, hua, hip, hbr]
  simp

/-- A request to exactly `/bearer` reaches the bearer branch. -/
theorem dispatch_bearer_route (env : Env) (r : Request) (hp : r.path = "/bearer") :
    dispatch env r = bearerHandler r RW.init := by
  simp only [dispatch, afterCache, hp,
    show hasInner "status" (segs "/bearer") = false from rfl,
    show hasInner "delay" (segs "/bearer") = false from rfl,
    show hasInner "bytes" (segs "/bearer") = false from rfl,
    show hasInner "cache" (segs "/bearer") = false from rfl,
    show hasInner "redirect" (segs "/bearer") = false from rfl]
  simp

/-- A request to exactly `/unstable` reaches the unstable branch. -/
theorem dispatch_unstable_route (env : Env) (r : Request) (hp : r.path = "/unstable") :
    dispatch env r = unstableHandler env r RW.init := by
  simp only [dispatch, afterCache, hp,
    show hasInner "status" (segs "/unstable") = false from rfl,
    show hasInner "delay" (segs "/unstable") = false from rfl,
    show hasInner "bytes" (segs "/unstable") = false from rfl,
    show hasInner "cache" (segs "/unstable") = false from rfl,
    show hasInner "redirect" (segs "/unstable") = false from rfl]
  simp

/-- Fields of an `fsthttp.Error` response written on a fresh writer. -/
theorem httpError_init_fields (msg : String) (c : Int) :
    (RW.init.httpError msg c).status = some c ∧
    (RW.init.httpError msg c).body = strBytes (msg ++ "\n") := by
  exact ⟨rfl, rfl⟩

/-- Fields of the redirect 302 response. -/
theorem redirect302_fields (loc : String) :
    ((RW.init.headerSet "Location" loc).httpError (statusText 302) 302).status = some 302 ∧
    ((RW.init.headerSet "Location" loc).httpError (statusText 302) 302).headerGet "Location"
      = loc := by
  exact ⟨rfl, rfl⟩

/-- Fields of the flushed bytes response. -/
theorem bytesWriter_fields (chunk : List Nat) :
    (bytesWriter chunk (RW.init.headerSet "Content-Type" "application/octet-stream")).status
      = some 200 ∧
    (bytesWriter chunk (RW.init.headerSet "Content-Type" "application/octet-stream")).body
      = chunk ∧
    (bytesWriter chunk (RW.init.headerSet "Content-Type" "application/octet-stream")).headerGet
      "Content-Length" = toString chunk.length := by
  exact ⟨rfl, rfl, rfl⟩

/-! ### Claim theorems -/

/-- Claim C6: for every integer n in a well-formed `/redirect/n` request,
n = 0 yields 200 with body "completed redirects"; 1 ≤ n ≤ 20 yields 302
with `Location: /redirect/(n-1)`; n > 20 yields 400 "maximum of 20
redirects allowed"; a non-integer segment yields 400 "Invalid redirects". -/
theorem C6_redirect_contract (env : Env) (r : Request) (s : String)
    (hs : segs r.path = ["", "redirect", s]) :
    (atoi s = none →
      (dispatch env r).status = some 400 ∧
      (dispatch env r).body = strBytes ("Invalid redirects" ++ "\n")) ∧
    (atoi s = some 0 →
      (dispatch env r).status = some 200 ∧
      (dispatch env r).body = strBytes "completed redirects") ∧
    (∀ n : Int, atoi s = some n → 1 ≤ n → n ≤ 20 →
      (dispatch env r).status = some 302 ∧
      (dispatch env r).headerGet "Location" = "/redirect/" ++ toString (n - 1)) ∧
    (∀ n : Int, atoi s = some n → 20 < n →
      (dispatch env r).status = some 400 ∧
      (dispatch env r).body = strBytes ("maximum of 20 redirects allowed" ++ "\n")) := by
  rw [dispatch_redirect_route env r s hs]
  refine ⟨?_, ?_, ?_, ?_⟩
  · intro h
    simp only [redirectHandler, show (["", "redirect", s].getD 2 "") = s from rfl, h]
    rw [if_neg (by simp)]
    exact httpError_init_fields _ _
  · intro h
    simp only [redirectHandler, show (["", "redirect", s].getD 2 "") = s from rfl, h]
    exact ⟨rfl, rfl⟩
  · intro n h h1 h20
    simp only [redirectHandler, show (["", "redirect", s].getD 2 "") = s from rfl, h]
    rw [if_neg (by simp), if_neg (by omega), if_neg (by omega)]
    exact redirect302_fields _
  · intro n h h20
    simp only [redirectHandler, show (["", "redirect", s].getD 2 "") = s from rfl, h]
    rw [if_neg (by simp), if_neg (by omega), if_pos (by omega)]
    exact httpError_init_fields _ _

/-- Claim C10: for every negative integer n, `/redirect/n` responds 302
with `Location: /redirect/(n-1)`: neither the terminal n = 0 check nor the
n > 20 limit guards negatives. -/
theorem C10_negative_redirect (env : Env) (r : Request) (s : String) (n : Int)
    (hs : segs r.path = ["", "redirect", s]) (ha : atoi s = some n) (hneg : n < 0) :
    (dispatch env r).status = some 302 ∧
    (dispatch env r).headerGet "Location" = "/redirect/" ++ toString (n - 1) := by
  rw [dispatch_redirect_route env r s hs]
  simp only [redirectHandler, show (["", "redirect", s].getD 2 "") = s from rfl, ha]
  rw [if_neg (by simp), if_neg (by omega), if_neg (by omega)]
  exact redirect302_fields _

/-- Claim C5: for every integer n parsed from `/bytes/n`: negative n yields
400; 0 ≤ n ≤ 102400 yields a 200 response whose body is exactly n bytes
with `Content-Length` n (n = 0 included); n > 102400 is silently clamped to
exactly 102400 bytes. -/
theorem C5_bytes_contract (env : Env) (r : Request) (s : String) (n : Int)
    (hs : segs r.path = ["", "bytes", s]) (ha : atoi s = some n) :
    (n < 0 → (dispatch env r).status = some 400) ∧
    (0 ≤ n → n ≤ 102400 →
      (dispatch env r).status = some 200 ∧
      (dispatch env r).body.length = n.toNat ∧
      (dispatch env r).headerGet "Content-Length" = toString n.toNat) ∧
    (102400 < n →
      (dispatch env r).status = some 200 ∧
      (dispatch env r).body.length = 102400 ∧
      (dispatch env r).headerGet "Content-Length" = "102400") := by
  rw [dispatch_bytes_route env r s hs]
  simp only [handleBytes, hs, show (["", "bytes", s].getD 2 "") = s from rfl, ha]
  rw [if_neg (by simp)]
  refine ⟨?_, ?_, ?_⟩
  · intro h
    rw [if_pos h]
    exact (httpError_init_fields _ _).1
  · intro h0 h102
    rw [if_neg (by omega)]
    by_cases hz : n = 0
    · rw [if_pos hz]
      subst hz
      exact ⟨rfl, rfl, rfl⟩
    · rw [if_neg hz, if_neg (by omega)]
      rw [goBytes_eq _ _ _ (by omega)]
      obtain ⟨hst, hbd, hcl⟩ :=
        bytesWriter_fields ((List.range n.toNat).map fun j => env.byteRnd j % 256)
      refine ⟨hst, ?_, ?_⟩
      · rw [hbd, List.length_map, List.length_range]
      · rw [hcl, List.length_map, List.length_range]
  · intro h
    rw [if_neg (by omega), if_neg (by omega), if_pos h]
    rw [show ((102400 : Int).toNat) = 102400 from rfl]
    rw [goBytes_eq _ _ _ (by omega)]
    obtain ⟨hst, hbd, hcl⟩ :=
      bytesWriter_fields ((List.range 102400).map fun j => env.byteRnd j % 256)
    refine ⟨hst, ?_, ?_⟩
    · rw [hbd, List.length_map, List.length_range]
    · rw [hcl, List.length_map, List.length_range]
      rfl

/-- Claim C7: a `/delay/{d}` segment that parses neither as a duration
expression nor as a bare float of seconds, or whose value lies outside
[0, 60s], yields 400 "Invalid duration" (no silent clamping); otherwise the
response is 499 with no body when the cancellation signal fires before the
timer, and 200 "delayed ok" when the timer fires first. -/
theorem C7_delay_contract (env : Env) (r : Request) (s : String)
    (hs : segs r.path = ["", "delay", s]) :
    (parseBoundedDuration s 0 60000000000 = none →
      (dispatch env r).status = some 400 ∧
      (dispatch env r).body = strBytes ("Invalid duration" ++ "\n")) ∧
    (∀ d, parseBoundedDuration s 0 60000000000 = some d →
      (env.cancelled = true →
        (dispatch env r).status = some 499 ∧ (dispatch env r).body = []) ∧
      (env.cancelled = false →
        (dispatch env r).status = some 200 ∧
        (dispatch env r).body = strBytes "delayed ok")) ∧
    (parseBoundedDuration s 0 60000000000 = none ↔
      parseDurationRepo s = none ∨
        ∃ d, parseDurationRepo s = some d ∧ (d < 0 ∨ 60000000000 < d)) := by
  rw [dispatch_delay_route env r s hs]
  refine ⟨?_, ?_, ?_⟩
  · intro h
    simp only [delayHandler, show (["", "delay", s].getD 2 "") = s from rfl, h]
    exact httpError_init_fields _ _
  · intro d h
    simp only [delayHandler, show (["", "delay", s].getD 2 "") = s from rfl, h]
    constructor
    · intro hc
      rw [hc]
      exact ⟨rfl, rfl⟩
    · intro hc
      rw [hc]
      exact ⟨rfl, rfl⟩
  · unfold parseBoundedDuration
    rcases hd : parseDurationRepo s with _ | d
    · simp
    · simp only [Option.some.injEq]
      constructor
      · intro h
        by_cases h1 : (60000000000 : Int) < d
        · exact Or.inr ⟨d, rfl, Or.inr h1⟩
        · rw [if_neg h1] at h
          by_cases h2 : d < 0
          · exact Or.inr ⟨d, rfl, Or.inl h2⟩
          · rw [if_neg h2] at h
            exact absurd h (by simp)
      · rintro (h | ⟨d', hd', h⟩)
        · exact absurd h (by simp)
        · subst hd'
          rcases h with h | h
          · rw [if_neg (by omega), if_pos h]
          · rw [if_pos h]

/-- Claim C9: a `/bearer` request whose Authorization header splits into
exactly two whitespace-separated fields with the first literally "Bearer"
gets 200 with the JSON body carrying the token; every other Authorization
value (including absent) gets 401 with `WWW-Authenticate: Bearer` and an
empty body. -/
theorem C9_bearer_contract (env : Env) (r : Request) (hp : r.path = "/bearer") :
    (∀ t, goFields (r.get "Authorization") = ["Bearer", t] →
      (dispatch env r).status = some 200 ∧
      (dispatch env r).body =
        strBytes ("\x7b\"authenticated\": true, \"token\":\"" ++ t ++ "\"\x7d")) ∧
    ((goFields (r.get "Authorization")).length ≠ 2 ∨
        (goFields (r.get "Authorization")).getD 0 "" ≠ "Bearer" →
      (dispatch env r).status = some 401 ∧
      (dispatch env r).headerGet "WWW-Authenticate" = "Bearer" ∧
      (dispatch env r).body = []) := by
  rw [dispatch_bearer_route env r hp]
  constructor
  · intro t ht
    simp only [bearerHandler, ht]
    rw [if_neg (by simp)]
    exact ⟨rfl, rfl⟩
  · intro h
    simp only [bearerHandler]
    rw [if_pos h]
    exact ⟨rfl, rfl, rfl⟩

/-- Claim C4 (amended): a `failure-rate` value that is invalid or lies
outside the open interval (0,1) — including the boundary values 0 and 1 —
falls back to the default rate 0.5, so the response to `/unstable` is then
determined by the uniform draw alone: 200 when the draw exceeds 0.5, 500
otherwise.  In particular `failure-rate=1` does not always give 500 and
`failure-rate=0` does not always give 200. -/
theorem C4_fallback_rate (env : Env) (r : Request) (hp : r.path = "/unstable")
    (hr : ∀ p, parseFloatQ r.failureRate = some p → p ≤ 0 ∨ 1 ≤ p) :
    (dispatch env r).status =
      some (if env.floatDraw > mkRat 1 2 then 200 else 500) := by
  rw [dispatch_unstable_route env r hp]
  have key : ∀ w : RW, w = (RW.init.headerAdd "Surrogate-Control"
      "max-age=31557600").headerAdd "Cache-Control" "no-store, max-age=0" →
      ((if env.floatDraw > mkRat 1 2 then w.write []
        else w.httpError (statusText 500) 500)).status =
        some (if env.floatDraw > mkRat 1 2 then 200 else 500) := by
    intro w hw
    subst hw
    by_cases h : env.floatDraw > mkRat 1 2
    · rw [if_pos h, if_pos h]
      rfl
    · rw [if_neg h, if_neg h]
      rfl
  rcases hf : parseFloatQ r.failureRate with _ | p
  · simp only [unstableHandler, hf]
    exact key _ rfl
  · have hp' := hr p hf
    have hno : ¬(p < 1 ∧ p > 0) := by
      rintro ⟨h1, h2⟩
      rcases hp' with h | h
      · exact absurd h2 (not_lt.mpr h)
      · exact absurd h1 (not_lt.mpr h)
    simp only [unstableHandler, hf]
    rw [if_neg hno]
    exact key _ rfl

/-- From a matched inner word, the path differs from any fixed path in
whose split the word is not inner. -/
theorem path_ne_of_hasInner {r : Request} {word : String}
    (h : hasInner word (segs r.path) = true) (p : String)
    (hp : hasInner word (segs p) = false) : r.path ≠ p := by
  intro he
  rw [he, hp] at h
  exact Bool.noConfusion h

/-- Claim C8 (amended): the routing check counts slash-separated parts
only.  A path matched by one of the parameterized route patterns (status,
delay, bytes, cache/<s>, redirect) whose split does not have exactly 3
parts yields 404 "Not found"; segment emptiness is not checked at routing
level (an empty segment reaches the handler and fails its validation with
400 instead, see the counterexample). -/
theorem C8_routing_segment_count (env : Env) (r : Request)
    (h3 : (segs r.path).length ≠ 3)
    (hm : hasInner "status" (segs r.path) = true ∨
          hasInner "delay" (segs r.path) = true ∨
          hasInner "bytes" (segs r.path) = true ∨
          hasInner "cache" (segs r.path) = true ∨
          hasInner "redirect" (segs r.path) = true) :
    (dispatch env r).status = some 404 ∧
    (dispatch env r).body = strBytes ("Not found" ++ "\n") := by
  have key : dispatch env r = RW.init.httpError "Not found" 404 := by
    simp only [dispatch]
    by_cases h1 : hasInner "status" (segs r.path) = true
    · rw [if_pos h1]
      simp only [statusHandler]
      rw [if_pos h3]
    · rw [if_neg h1]
      by_cases h2 : hasInner "delay" (segs r.path) = true
      · rw [if_pos h2]
        simp only [delayHandler]
        rw [if_pos h3]
      · rw [if_neg h2]
        by_cases hb : hasInner "bytes" (segs r.path) = true
        · rw [if_pos hb]
          simp only [handleBytes]
          rw [if_pos h3]
        · rw [if_neg hb]
          by_cases hc : hasInner "cache" (segs r.path) = true
          · have hcp : r.path ≠ "/cache" := path_ne_of_hasInner hc "/cache" rfl
            simp only [hcp, false_and, if_false]
            simp only [afterCache]
            rw [if_pos hc]
            simp only [cacheParamHandler]
            rw [if_pos h3]
          · have hrd : hasInner "redirect" (segs r.path) = true := by
              rcases hm with h | h | h | h | h
              · exact absurd h h1
              · exact absurd h h2
              · exact absurd h hb
              · exact absurd h hc
              · exact h
            have hcp : r.path ≠ "/cache" := path_ne_of_hasInner hrd "/cache" rfl
            have hany : r.path ≠ "/anything" := path_ne_of_hasInner hrd "/anything" rfl
            have hua : r.path ≠ "/user-agent" := path_ne_of_hasInner hrd "/user-agent" rfl
            have hip : r.path ≠ "/ip" := path_ne_of_hasInner hrd "/ip" rfl
            have hbr : r.path ≠ "/bearer" := path_ne_of_hasInner hrd "/bearer" rfl
            simp only [hcp, false_and, if_false]
            simp only [afterCache, hany, hua, hip, hbr, if_false]
            rw [if_neg hc, if_pos hrd]
            simp only [redirectHandler]
            rw [if_pos h3]
  rw [key]
  exact ⟨rfl, rfl⟩

/-- The request of C8's counterexample and C4's concrete inputs. -/
def reqCacheCond : Request := { mkReq "/cache" with headers := [("If-None-Match", "x")] }

def reqUnstable1 : Request := { mkReq "/unstable" with failureRate := "1" }

def reqUnstable0 : Request := { mkReq "/unstable" with failureRate := "0" }

def reqBearerOk : Request :=
  { mkReq "/bearer" with headers := [("Authorization", "Bearer abc123")] }

/-- Claim C8 counterexample: `/status/` is matched by the status route
pattern and its split `["", "status", ""]` does not consist of 3 non-empty
segments, yet the response is 400 "Invalid status" (handler-level
validation), not 404 as the claim states. -/
theorem C8_counterexample :
    hasInner "status" (segs "/status/") = true ∧
    segs "/status/" = ["", "status", ""] ∧
    (dispatch envDefault (mkReq "/status/")).status = some 400 ∧
    (dispatch envDefault (mkReq "/status/")).status ≠ some 404 ∧
    (dispatch envDefault (mkReq "/status/")).body = strBytes ("Invalid status" ++ "\n") := by
  decide

/-- Claim C1 (code bug): `/cache` with a conditional header returns 304
with empty body, as claimed; without conditional headers the response
carries status 200 with `Last-Modified` and `ETag` set, but the missing
`return` after the empty 200 write (main.go:108) lets control fall through
to the 404 catch-all, which appends "Not Found\n" to the already-committed
response body — the claimed empty body does not hold. -/
theorem C1_cache_missing_return :
    ((dispatch envDefault reqCacheCond).status = some 304 ∧
      (dispatch envDefault reqCacheCond).body = []) ∧
    (dispatch envDefault (mkReq "/cache")).status = some 200 ∧
    (dispatch envDefault (mkReq "/cache")).headerGet "Last-Modified" = tsDefault ∧
    (dispatch envDefault (mkReq "/cache")).headerGet "ETag" = sha1hash tsDefault ∧
    (dispatch envDefault (mkReq "/cache")).body = strBytes "Not Found\n" := by
  decide

/-- Claim C2 (code bug): `/status/1000` is emitted with the out-of-range
status 1000, not 400: the `code >= 300` branch returns first, so the
`code > 999` override (main.go:57-59) is unreachable dead code. -/
theorem C2_status_over999_not_overridden :
    (dispatch envDefault (mkReq "/status/1000")).status = some 1000 ∧
    (dispatch envDefault (mkReq "/status/1000")).status ≠ some 400 := by
  decide

/-- Claim C3 (code bug): the ETag on the `/cache` 200 branch is the hex of
the timestamp bytes followed by the SHA-1 digest of the EMPTY message
(`h.Sum([]byte(input))` appends a digest of what was written — nothing —
to `input`), which differs from the claimed hash over the timestamp. -/
theorem C3_etag_hash_of_empty :
    (dispatch envDefault (mkReq "/cache")).headerGet "ETag"
      = hexStr (strBytes tsDefault ++ sha1digest []) ∧
    hexStr (strBytes tsDefault ++ sha1digest [])
      ≠ hexStr (sha1digest (strBytes tsDefault)) := by
  decide

/-- Claim C4 counterexample: with `failure-rate=1` and uniform draw 3/4,
the response of `/unstable` is 200, refuting "every request to
`/unstable?failure-rate=1` returns status 500". -/
theorem C4_counterexample :
    (dispatch envDefault reqUnstable1).status = some 200 ∧
    (dispatch envDefault reqUnstable1).status ≠ some 500 := by
  decide

/-! ### Witnesses -/

/-- Witness for C4: `failure-rate=0` falls back to rate 0.5; with draw 3/4
the response is 200. -/
theorem C4_fallback_rate_witness :
    (dispatch envDefault reqUnstable0).status = some 200 := by
  have hr : ∀ p, parseFloatQ reqUnstable0.failureRate = some p → p ≤ 0 ∨ 1 ≤ p := by
    intro p hp
    have h0 : parseFloatQ reqUnstable0.failureRate = some 0 := by decide
    rw [h0] at hp
    exact Or.inl (le_of_eq (Option.some.inj hp).symm)
  have h := C4_fallback_rate envDefault reqUnstable0 rfl hr
  rw [h]
  decide

/-- Witness for C5 at `/bytes/5`. -/
theorem C5_bytes_contract_witness :
    (dispatch envDefault (mkReq "/bytes/5")).status = some 200 ∧
    (dispatch envDefault (mkReq "/bytes/5")).body.length = 5 ∧
    (dispatch envDefault (mkReq "/bytes/5")).headerGet "Content-Length" = "5" := by
  have h := C5_bytes_contract envDefault (mkReq "/bytes/5") "5" 5 (by decide) (by decide)
  have h2 := h.2.1 (by decide) (by decide)
  exact ⟨h2.1, h2.2.1, h2.2.2⟩

/-- Witness for C6 at `/redirect/3`. -/
theorem C6_redirect_contract_witness :
    (dispatch envDefault (mkReq "/redirect/3")).status = some 302 ∧
    (dispatch envDefault (mkReq "/redirect/3")).headerGet "Location" = "/redirect/2" := by
  have h := C6_redirect_contract envDefault (mkReq "/redirect/3") "3" (by decide)
  have h3 := h.2.2.1 3 (by decide) (by decide) (by decide)
  exact ⟨h3.1, h3.2⟩

/-- Witness for C7: `/delay/61s` is rejected with 400; `/delay/0.5` (a bare
float of seconds) succeeds with 200 "delayed ok". -/
theorem C7_delay_contract_witness :
    (dispatch envDefault (mkReq "/delay/61s")).status = some 400 ∧
    (dispatch envDefault (mkReq "/delay/0.5")).status = some 200 := by
  have h1 := C7_delay_contract envDefault (mkReq "/delay/61s") "61s" (by decide)
  have h2 := C7_delay_contract envDefault (mkReq "/delay/0.5") "0.5" (by decide)
  refine ⟨(h1.1 (by decide)).1, ?_⟩
  exact ((h2.2.1 500000000 (by decide)).2 rfl).1

/-- Witness for C8 (amended) at `/redirect/1/2`. -/
theorem C8_routing_segment_count_witness :
    (dispatch envDefault (mkReq "/redirect/1/2")).status = some 404 ∧
    (dispatch envDefault (mkReq "/redirect/1/2")).body = strBytes ("Not found" ++ "\n") := by
  exact C8_routing_segment_count envDefault (mkReq "/redirect/1/2") (by decide)
    (Or.inr (Or.inr (Or.inr (Or.inr (by decide)))))

/-- Witness for C9: a well-formed bearer token gets 200 with the token
echoed; an absent Authorization header gets 401. -/
theorem C9_bearer_contract_witness :
    (dispatch envDefault reqBearerOk).status = some 200 ∧
    (dispatch envDefault reqBearerOk).body =
      strBytes ("\x7b\"authenticated\": true, \"token\":\"" ++ "abc123" ++ "\"\x7d") ∧
    (dispatch envDefault (mkReq "/bearer")).status = some 401 := by
  have h1 := C9_bearer_contract envDefault reqBearerOk rfl
  have h2 := C9_bearer_contract envDefault (mkReq "/bearer") rfl
  refine ⟨(h1.1 "abc123" (by decide)).1, (h1.1 "abc123" (by decide)).2, ?_⟩
  exact (h2.2 (Or.inl (by decide))).1

/-- Witness for C10 at the redirect path with segment "-3". -/
theorem C10_negative_redirect_witness :
    (dispatch envDefault (mkReq "/redirect/-3")).status = some 302 ∧
    (dispatch envDefault (mkReq "/redirect/-3")).headerGet "Location"
      = "/redirect/" ++ toString ((-3 : Int) - 1) := by
  exact C10_negative_redirect envDefault (mkReq "/redirect/-3") "-3" (-3)
    (by decide) (by decide) (by decide)

end EdgeHttpBin
